import Mathlib

/-!
GameHub backend — verification of the authentication and event subsystems.

Shallow embedding of `app/auth.py`, `app/main.py`, `app/routers/events.py`
and the data model of `app/models.py`.

Modelling conventions:
* Python strings are `List Char` (sequences of Unicode code points); `s[:72]`
  is `List.take 72`, `len(s)` is `List.length`, `s.encode('utf-8')` is
  `utf8Encode`.
* `hashlib.sha256` is implemented concretely (FIPS 180-4) over byte lists so
  digests are computable; `bcrypt` (a salted, randomized primitive backed by
  the `passlib` library) is an abstract `HashBackend` parameter, with the
  library's documented round-trip contract as an explicit hypothesis.
  A bcrypt call that raises an exception is modelled as returning `none`.
* Machine words are `Nat` reduced modulo `2 ^ 32` explicitly.
-/

set_option maxRecDepth 100000

namespace GameHub

/-! ### UTF-8 encoding (model of Python `str.encode('utf-8')`) -/

def M32 : Nat := 4294967296

def utf8EncodeChar (c : Char) : List Nat :=
  let n := c.toNat
  if n < 128 then [n]
  else if n < 2048 then [192 ||| (n >>> 6), 128 ||| (n &&& 63)]
  else if n < 65536 then
    [224 ||| (n >>> 12), 128 ||| ((n >>> 6) &&& 63), 128 ||| (n &&& 63)]
  else
    [240 ||| (n >>> 18), 128 ||| ((n >>> 12) &&& 63),
     128 ||| ((n >>> 6) &&& 63), 128 ||| (n &&& 63)]

def utf8Encode (s : List Char) : List Nat :=
  (s.map utf8EncodeChar).flatten

/-! ### SHA-256 (model of `hashlib.sha256(...).hexdigest()`) -/

def rotr (n x : Nat) : Nat := ((x >>> n) ||| (x <<< (32 - n))) % M32

def shaCh (x y z : Nat) : Nat := (x &&& y) ^^^ ((x ^^^ (M32 - 1)) &&& z)

def shaMaj (x y z : Nat) : Nat := (x &&& y) ^^^ (x &&& z) ^^^ (y &&& z)

def bigSigma0 (x : Nat) : Nat := rotr 2 x ^^^ rotr 13 x ^^^ rotr 22 x

def bigSigma1 (x : Nat) : Nat := rotr 6 x ^^^ rotr 11 x ^^^ rotr 25 x

def smallSigma0 (x : Nat) : Nat := rotr 7 x ^^^ rotr 18 x ^^^ (x >>> 3)

def smallSigma1 (x : Nat) : Nat := rotr 17 x ^^^ rotr 19 x ^^^ (x >>> 10)

/-- The 64 SHA-256 round constants of FIPS 180-4, in decimal. -/
def shaK : List Nat :=
  [1116352408, 1899447441, 3049323471, 3921009573, 961987163, 1508970993,
   2453635748, 2870763221, 3624381080, 310598401, 607225278, 1426881987,
   1925078388, 2162078206, 2614888103, 3248222580, 3835390401, 4022224774,
   264347078, 604807628, 770255983, 1249150122, 1555081692, 1996064986,
   2554220882, 2821834349, 2952996808, 3210313671, 3336571891, 3584528711,
   113926993, 338241895, 666307205, 773529912, 1294757372, 1396182291,
   1695183700, 1986661051, 2177026350, 2456956037, 2730485921, 2820302411,
   3259730800, 3345764771, 3516065817, 3600352804, 4094571909, 275423344,
   430227734, 506948616, 659060556, 883997877, 958139571, 1322822218,
   1537002063, 1747873779, 1955562222, 2024104815, 2227730452, 2361852424,
   2428436474, 2756734187, 3204031479, 3329325298]

/-- The eight SHA-256 initial hash values of FIPS 180-4, in decimal. -/
def shaH0 : List Nat :=
  [1779033703, 3144134277, 1013904242, 2773480762,
   1359893119, 2600822924, 528734635, 1541459225]

def toBytesBE (n v : Nat) : List Nat :=
  (List.range n).map (fun i => (v >>> (8 * (n - 1 - i))) % 256)

def sha256pad (msg : List Nat) : List Nat :=
  let L := msg.length
  let k := (119 - L % 64) % 64
  msg ++ [128] ++ List.replicate k 0 ++ toBytesBE 8 (8 * L)

def bytesToWords : List Nat → List Nat
  | a :: b :: c :: d :: rest => (((a * 256 + b) * 256 + c) * 256 + d) :: bytesToWords rest
  | _ => []

def extendW (fuel : Nat) (w : List Nat) : List Nat :=
  match fuel with
  | 0 => w
  | f + 1 =>
    let i := w.length
    let wi := (smallSigma1 (w.getD (i - 2) 0) + w.getD (i - 7) 0 +
               smallSigma0 (w.getD (i - 15) 0) + w.getD (i - 16) 0) % M32
    extendW f (w ++ [wi])

def shaRound (st : List Nat) (ki wi : Nat) : List Nat :=
  match st with
  | [a, b, c, d, e, f, g, h] =>
    let t1 := (h + bigSigma1 e + shaCh e f g + ki + wi) % M32
    let t2 := (bigSigma0 a + shaMaj a b c) % M32
    [(t1 + t2) % M32, a, b, c, (d + t1) % M32, e, f, g]
  | other => other

def shaCompress (h : List Nat) (block : List Nat) : List Nat :=
  let w := extendW 48 (bytesToWords block)
  let st := (List.range 64).foldl (fun st i => shaRound st (shaK.getD i 0) (w.getD i 0)) h
  List.zipWith (fun x y => (x + y) % M32) h st

def shaBlocks (fuel : Nat) (h : List Nat) (bytes : List Nat) : List Nat :=
  match fuel with
  | 0 => h
  | f + 1 => shaBlocks f (shaCompress h (bytes.take 64)) (bytes.drop 64)

def sha256 (msg : List Nat) : List Nat :=
  let padded := sha256pad msg
  let h := shaBlocks (padded.length / 64) shaH0 padded
  (h.map (toBytesBE 4)).flatten

def hexDigit (n : Nat) : Char :=
  if n < 10 then Char.ofNat (48 + n) else Char.ofNat (87 + n)

def bytesToHex (bs : List Nat) : List Char :=
  (bs.map (fun b => [hexDigit (b / 16), hexDigit (b % 16)])).flatten

/-- `hashlib.sha256(s.encode()).hexdigest()` for a Python string `s`. -/
def sha256Hex (s : List Char) : List Char :=
  bytesToHex (sha256 (utf8Encode s))

/-! ### Password Hashing Service (`app/auth.py`) -/

def hexChars : List Char := "0123456789abcdef".data

/-- The format sniff at the top of `verify_password`:
`len(hashed_password) == 64 and all(c in '0123456789abcdef' for c in hashed_password)`. -/
def isSha256Hash (h : List Char) : Bool :=
  h.length == 64 && h.all (fun c => hexChars.contains c)

/-- The truncation step shared by `get_password_hash` and `verify_password`'s
bcrypt branch:
`if len(password.encode('utf-8')) > 72: password = password[:72]`.
The guard counts UTF-8 bytes but the slice drops characters. -/
def truncate72 (p : List Char) : List Char :=
  if 72 < (utf8Encode p).length then p.take 72 else p

/-- Abstract interface to the salted, randomized bcrypt primitive
(`pwd_context.hash` / `pwd_context.verify` from passlib); `none` models the
call raising an exception, which the source catches. -/
structure HashBackend where
  bcryptHash : List Char → Option (List Char)
  bcryptVerify : List Char → List Char → Option Bool

/-- The contract the bcrypt library documents: a hash just produced verifies
against the password it was produced from, and a bcrypt modular-crypt string
(60 chars starting with a dollar sign) is never 64 lowercase-hex characters. -/
def GoodBackend (B : HashBackend) : Prop :=
  (∀ p h, B.bcryptHash p = some h → B.bcryptVerify p h = some true) ∧
  (∀ p h, B.bcryptHash p = some h → isSha256Hash h = false)

/-- A backend on which every bcrypt call raises: the environment failure that
drives the source's SHA-256 fallback paths. -/
def failingBackend : HashBackend := ⟨fun _ => none, fun _ _ => none⟩

/-- `verify_password` from `app/auth.py` (lines 24-55). -/
def verify_password (B : HashBackend) (plain_password hashed_password : List Char) : Bool :=
  if isSha256Hash hashed_password then
    sha256Hex plain_password == hashed_password
  else
    let p := truncate72 plain_password
    match B.bcryptVerify p hashed_password with
    | some r => r
    | none => sha256Hex p == hashed_password

/-- `get_password_hash` from `app/auth.py` (lines 57-77). -/
def get_password_hash (B : HashBackend) (password : List Char) : List Char :=
  let p := truncate72 password
  match B.bcryptHash p with
  | some h => h
  | none => sha256Hex p

/-- 73 repetitions of the one-byte character `a`: a password whose UTF-8
encoding (73 bytes) exceeds the 72-byte guard. -/
def pwA73 : List Char := List.replicate 73 'a'

/-- 73 repetitions of the two-byte character `¢` (U+00A2): 73 characters,
146 UTF-8 bytes. -/
def pwCent73 : List Char := List.replicate 73 '¢'

/-- 100 repetitions of `b`: a long pure-ASCII password. -/
def pwB100 : List Char := List.replicate 100 'b'

/-! ### Token Service (`app/auth.py` lines 16-18 and 79-104) -/

/-- Default of `os.getenv("SECRET_KEY", "your-secret-key-here")`. -/
def SECRET_KEY : List Char := "your-secret-key-here".data

/-- Default of `os.getenv("ALGORITHM", "HS256")`. -/
def ALGORITHM : List Char := "HS256".data

/-- Default of `os.getenv("ACCESS_TOKEN_EXPIRE_MINUTES", 30)`. -/
def ACCESS_TOKEN_EXPIRE_MINUTES : Int := 30

/-- A JSON claim value as relevant to the token payload. -/
inductive JValue
  | str (s : List Char)
  | int (n : Int)
deriving DecidableEq

/-- A JWT as the decoder sees it: either not a well-formed compact JWS at
all, or a claim set signed with some key under some algorithm. -/
inductive Token
  | malformed
  | signed (claims : List (List Char × JValue)) (key : List Char) (alg : List Char)
deriving DecidableEq

/-- Python `dict.update({k: v})` on an association list with unique keys. -/
def dictUpdate (d : List (List Char × JValue)) (k : List Char) (v : JValue) :
    List (List Char × JValue) :=
  if d.any (fun p => p.1 == k) then d.map (fun p => if p.1 == k then (k, v) else p)
  else d ++ [(k, v)]

/-- `jose.jwt.decode(token, key, algorithms=algs)` with times in seconds
since the epoch; `none` models raising `JWTError`. The decoder rejects a
malformed token, a signature under a different key or algorithm, a
non-numeric `exp` claim, and a past `exp` (`exp < now` raises
`ExpiredSignatureError`; a missing `exp` is not checked). -/
def jwtDecode (t : Token) (key : List Char) (algs : List (List Char)) (now : Int) :
    Option (List (List Char × JValue)) :=
  match t with
  | .malformed => none
  | .signed cs k a =>
    if k == key && algs.contains a then
      match cs.lookup ("exp".data) with
      | some (JValue.int e) => if e < now then none else some cs
      | some _ => none
      | none => some cs
    else none

/-- `schemas.TokenData`. -/
structure TokenData where
  email : List Char
deriving DecidableEq

/-- An HTTP error response: status code and detail message. -/
abbrev HTTPError := Nat × List Char

/-- The 401 body raised throughout `verify_token` / `get_current_user`. -/
def couldNotValidate : HTTPError := (401, "Could not validate credentials".data)

/-- `create_access_token` from `app/auth.py` (lines 79-87), durations in
seconds. `none` models the absent argument; and because Python's
`if expires_delta:` is false for a zero timedelta, `some 0` also falls
through to the 15-minute default. -/
def create_access_token (data : List (List Char × JValue))
    (expires_delta : Option Int) (now : Int) : Token :=
  let expire : Int :=
    match expires_delta with
    | some d => if d ≠ 0 then now + d else now + 15 * 60
    | none => now + 15 * 60
  Token.signed (dictUpdate data ("exp".data) (JValue.int expire)) SECRET_KEY ALGORITHM

/-- `verify_token` from `app/auth.py` (lines 89-104). -/
def verify_token (t : Token) (now : Int) : Except HTTPError TokenData :=
  match jwtDecode t SECRET_KEY [ALGORITHM] now with
  | none => Except.error couldNotValidate
  | some payload =>
    match payload.lookup ("sub".data) with
    | some (JValue.str email) => Except.ok ⟨email⟩
    | _ => Except.error couldNotValidate

/-- The decoder's expiry/typing rejection of the `exp` claim, as a predicate:
`exp` present and in the past, or present and non-numeric. -/
def expRejected (cs : List (List Char × JValue)) (now : Int) : Bool :=
  match cs.lookup ("exp".data) with
  | some (JValue.int e) => decide (e < now)
  | some _ => true
  | none => false

/-- The `sub` claim is missing or not a string
(`if not isinstance(email, str)`). -/
def subMissing (cs : List (List Char × JValue)) : Bool :=
  match cs.lookup ("sub".data) with
  | some (JValue.str _) => false
  | _ => true

/-! ### Data model (`app/models.py`) and relational store -/

/-- `models.User` (timestamp column omitted). -/
structure User where
  id : Nat
  name : List Char
  email : List Char
  hashed_password : List Char
  role : List Char
  is_active : Bool
deriving DecidableEq

/-- `models.Event` (timestamp column omitted). -/
structure Event where
  id : Nat
  title : List Char
  description : List Char
  category : List Char
  date : List Char
  time : List Char
  location : List Char
  max_participants : Int
  organizer_id : Nat
  is_active : Bool
deriving DecidableEq

/-- `models.Registration` (timestamp column omitted). -/
structure Registration where
  id : Nat
  user_id : Nat
  event_id : Nat
  status : List Char
deriving DecidableEq

/-- `models.Feedback` (timestamp column omitted). -/
structure Feedback where
  id : Nat
  user_id : Nat
  event_id : Nat
  rating : Int
  comments : List Char
deriving DecidableEq

/-- The relational store: each table as the list of its rows in insertion
order (`query(...).first()` is `List.find?`, `.all()` is `List.filter`),
plus the autoincrement counter for registration primary keys. -/
structure DB where
  users : List User
  events : List Event
  registrations : List Registration
  feedbacks : List Feedback
  nextRegId : Nat
deriving DecidableEq

/-- `get_current_user` from `app/auth.py` (lines 106-113): the query filters
on email only. -/
def get_current_user (db : DB) (token_data : TokenData) : Except HTTPError User :=
  match db.users.find? (fun u => u.email == token_data.email) with
  | none => Except.error couldNotValidate
  | some user => Except.ok user

/-- A deactivated user on file: `is_active = False`, stored hash in the
legacy SHA-256 format. -/
def inactiveUser : User :=
  ⟨1, "Dana".data, "dana@test.com".data, List.replicate 64 '0', "player".data, false⟩

/-- A store holding only `inactiveUser`. -/
def dbInactive : DB := ⟨[inactiveUser], [], [], [], 1⟩

/-! ### Login flow (`app/auth.py` lines 115-132, `app/main.py` lines 67-87) -/

/-- `authenticate_user` from `app/auth.py` (lines 115-132); Python returns
`False` or the user row, modelled as `Option User`. -/
def authenticate_user (db : DB) (B : HashBackend) (email password : List Char) :
    Option User :=
  match db.users.find? (fun u => u.email == email) with
  | none => none
  | some user =>
    if verify_password B password user.hashed_password then some user else none

/-- The body of a successful `/test/login` response: bearer token plus the
denormalized user summary. -/
structure LoginResponse where
  access_token : Token
  token_type : List Char
  user_id : Nat
  user_name : List Char
  user_email : List Char
  user_role : List Char
deriving DecidableEq

/-- The generic login failure: status 401, detail
`"Incorrect email or password"`. -/
def incorrectEmailOrPassword : HTTPError := (401, "Incorrect email or password".data)

/-- `login` from `app/main.py` (lines 67-87). -/
def login (db : DB) (B : HashBackend) (username password : List Char) (now : Int) :
    Except HTTPError LoginResponse :=
  match authenticate_user db B username password with
  | none => Except.error incorrectEmailOrPassword
  | some user =>
    Except.ok ⟨create_access_token [("sub".data, JValue.str user.email)]
        (some (ACCESS_TOKEN_EXPIRE_MINUTES * 60)) now,
      "bearer".data, user.id, user.name, user.email, user.role⟩

/-! ### Event endpoints (`app/routers/events.py`, `app/main.py`) -/

/-- `get_events` from `app/routers/events.py` (lines 9-12): filters on
`Event.is_active.is_(True)`. -/
def get_events (db : DB) : List Event :=
  db.events.filter (fun e => e.is_active)

/-- `get_event_details` from `app/main.py` (lines 107-115): id lookup with
no `is_active` filter (the `joinedload` of the organizer is presentation
only). -/
def get_event_details (db : DB) (event_id : Nat) : Except HTTPError Event :=
  match db.events.find? (fun e => e.id == event_id) with
  | none => Except.error (404, "Event not found".data)
  | some event => Except.ok event

/-- `get_event_registrations` from `app/main.py` (lines 118-130), as the row
set (the dynamic user-name enrichment is presentation only). -/
def get_event_registrations (db : DB) (event_id : Nat) : List Registration :=
  db.registrations.filter (fun r => r.event_id == event_id)

/-- `get_event_feedback` from `app/main.py` (lines 133-144). -/
def get_event_feedback (db : DB) (event_id : Nat) : List Feedback :=
  db.feedbacks.filter (fun f => f.event_id == event_id)

/-- `register_for_event` from `app/main.py` (lines 167-200): 404 on a
missing event, 400 on `max_participants <= 0`, 400 on an existing
registration with status `registered`, otherwise insert one registration row
and decrement the event's `max_participants` by one. -/
def register_for_event (db : DB) (current_user : User) (reg_event_id : Nat) :
    Except HTTPError (DB × Registration) :=
  match db.events.find? (fun e => e.id == reg_event_id) with
  | none => Except.error (404, "Event not found".data)
  | some event =>
    if event.max_participants ≤ 0 then
      Except.error (400, "No slots available for this event".data)
    else if (db.registrations.find? (fun r =>
        r.user_id == current_user.id && r.event_id == reg_event_id &&
        r.status == "registered".data)).isSome then
      Except.error (400, "Already registered for this event".data)
    else
      let db_registration : Registration :=
        ⟨db.nextRegId, current_user.id, reg_event_id, "registered".data⟩
      let db' : DB :=
        { db with
          registrations := db.registrations ++ [db_registration],
          events := db.events.map (fun e =>
            if e.id == event.id then
              { e with max_participants := e.max_participants - 1 }
            else e),
          nextRegId := db.nextRegId + 1 }
      Except.ok (db', db_registration)

/-- `delete_event` from `app/main.py` (lines 272-303). `failAt = some k`
models the k-th store call inside the `try` block raising (0: delete the
registrations, 1: delete the feedback, 2: delete the event row / commit; any
other `some` value also fails at commit); the `except` branch rolls the
transaction back, leaving the store as it was, and reports 500 (the
exception text interpolated into the detail is abstracted away). -/
def delete_event (db : DB) (current_user : User) (event_id : Nat)
    (failAt : Option Nat) : DB × Except HTTPError (List Char) :=
  if current_user.role != "organizer".data && current_user.role != "admin".data then
    (db, Except.error (403, "Only organizers can delete events".data))
  else
    match db.events.find? (fun e => e.id == event_id) with
    | none => (db, Except.error (404, "Event not found".data))
    | some event =>
      if current_user.role != "admin".data && event.organizer_id != current_user.id then
        (db, Except.error (403, "You can only delete your own events".data))
      else if failAt == some 0 then
        (db, Except.error (500, "Failed to delete event".data))
      else
        let db1 := { db with
          registrations := db.registrations.filter (fun r => !(r.event_id == event_id)) }
        if failAt == some 1 then
          (db, Except.error (500, "Failed to delete event".data))
        else
          let db2 := { db1 with
            feedbacks := db1.feedbacks.filter (fun f => !(f.event_id == event_id)) }
          if failAt == some 2 then
            (db, Except.error (500, "Failed to delete event".data))
          else
            let db3 := { db2 with
              events := db2.events.eraseP (fun e => e.id == event_id) }
            match failAt with
            | some _ => (db, Except.error (500, "Failed to delete event".data))
            | none => (db3, Except.ok "Event deleted successfully".data)

/-! ### Concrete fixtures for witnesses and counterexamples -/

/-- An organizer on file. -/
def organizerUser : User :=
  ⟨2, "Org".data, "org@test.com".data, List.replicate 64 '0', "organizer".data, true⟩

/-- An inactive event (`is_active = False`). -/
def inactiveEvent : Event :=
  ⟨5, "Retro Night".data, "Old consoles".data, "casual".data, "2025-11-15".data,
   "18:00".data, "Arena".data, 10, 2, false⟩

/-- An active event with two open slots. -/
def activeEvent : Event :=
  ⟨7, "Open LAN".data, "Bring your rig".data, "lan".data, "2025-11-20".data,
   "10:00".data, "Hall B".data, 2, 2, true⟩

/-- A store with both events and no registrations. -/
def dbEvents : DB := ⟨[inactiveUser, organizerUser], [inactiveEvent, activeEvent], [], [], 1⟩

/-- A registration row for event 5. -/
def regRow : Registration := ⟨1, 1, 5, "registered".data⟩

/-- A feedback row for event 5. -/
def fbRow : Feedback := ⟨1, 1, 5, 4, "fun".data⟩

/-- A store where event 5 (owned by `organizerUser`) has a registration and
a feedback row. -/
def dbDelete : DB := ⟨[inactiveUser, organizerUser], [inactiveEvent], [regRow], [fbRow], 2⟩

/-! ### Shape lemmas: a hexdigest is always 64 lowercase-hex characters -/

theorem toBytesBE_length (n v : Nat) : (toBytesBE n v).length = n := by
  simp [toBytesBE]

theorem toBytesBE_mem_lt (n v b : Nat) (hb : b ∈ toBytesBE n v) : b < 256 := by
  simp only [toBytesBE, List.mem_map] at hb
  obtain ⟨i, -, rfl⟩ := hb
  exact Nat.mod_lt _ (by norm_num)

theorem shaRound_length (st : List Nat) (ki wi : Nat) :
    (shaRound st ki wi).length = st.length := by
  unfold shaRound
  split <;> simp

theorem foldl_shaRound_length (l : List Nat) (k w : Nat → Nat) (st : List Nat) :
    (l.foldl (fun s i => shaRound s (k i) (w i)) st).length = st.length := by
  induction l generalizing st with
  | nil => rfl
  | cons a l ih => simpa [List.foldl_cons, shaRound_length] using ih (shaRound st (k a) (w a))

theorem shaCompress_length (h block : List Nat) (hh : h.length = 8) :
    (shaCompress h block).length = 8 := by
  simp [shaCompress, List.length_zipWith, foldl_shaRound_length, hh]

theorem shaBlocks_length (fuel : Nat) (h bytes : List Nat) (hh : h.length = 8) :
    (shaBlocks fuel h bytes).length = 8 := by
  induction fuel generalizing h bytes with
  | zero => simpa [shaBlocks] using hh
  | succ f ih => exact ih _ _ (shaCompress_length _ _ hh)

theorem sum_map_four (l : List Nat) : (l.map (fun _ => 4)).sum = 4 * l.length := by
  induction l with
  | nil => rfl
  | cons a l ih => simp only [List.map_cons, List.sum_cons, List.length_cons, ih]; ring

theorem sha256_length (msg : List Nat) : (sha256 msg).length = 32 := by
  unfold sha256
  rw [List.length_flatten]
  have h8 : (shaBlocks ((sha256pad msg).length / 64) shaH0 (sha256pad msg)).length = 8 :=
    shaBlocks_length _ _ _ (by rfl)
  generalize (shaBlocks ((sha256pad msg).length / 64) shaH0 (sha256pad msg)) = h at h8
  rw [List.map_map]
  have hmap : (h.map (List.length ∘ toBytesBE 4)) = h.map (fun _ => 4) := by
    exact List.map_congr_left (fun a _ => toBytesBE_length 4 a)
  rw [hmap, sum_map_four, h8]

theorem sha256_mem_lt (msg : List Nat) (b : Nat) (hb : b ∈ sha256 msg) : b < 256 := by
  unfold sha256 at hb
  rw [List.mem_flatten] at hb
  obtain ⟨l, hl, hbl⟩ := hb
  rw [List.mem_map] at hl
  obtain ⟨w, -, rfl⟩ := hl
  exact toBytesBE_mem_lt 4 w b hbl

theorem hexDigit_mem (n : Nat) (hn : n < 16) : hexChars.contains (hexDigit n) = true := by
  interval_cases n <;> decide

theorem bytesToHex_length (bs : List Nat) : (bytesToHex bs).length = 2 * bs.length := by
  induction bs with
  | nil => rfl
  | cons b bs ih =>
    simp only [bytesToHex, List.map_cons, List.flatten_cons] at ih ⊢
    simp [ih]
    ring

theorem bytesToHex_all_hex (bs : List Nat) (h : ∀ b ∈ bs, b < 256) :
    (bytesToHex bs).all (fun c => hexChars.contains c) = true := by
  rw [List.all_eq_true]
  intro c hc
  simp only [bytesToHex, List.mem_flatten, List.mem_map] at hc
  obtain ⟨l, ⟨b, hb, rfl⟩, hcl⟩ := hc
  have hb256 := h b hb
  have h16 : b / 16 < 16 := Nat.div_lt_of_lt_mul (by omega)
  have hm16 : b % 16 < 16 := Nat.mod_lt _ (by norm_num)
  simp only [List.mem_cons, List.not_mem_nil, or_false] at hcl
  rcases hcl with rfl | rfl
  · exact hexDigit_mem _ h16
  · exact hexDigit_mem _ hm16

/-- The SHA-256 hexdigest always satisfies `verify_password`'s format sniff:
64 characters, all lowercase hex. -/
theorem isSha256Hash_sha256Hex (s : List Char) : isSha256Hash (sha256Hex s) = true := by
  unfold isSha256Hash sha256Hex
  rw [Bool.and_eq_true]
  constructor
  · rw [bytesToHex_length, sha256_length]; decide
  · exact bytesToHex_all_hex _ (sha256_mem_lt _)

/-- SHA-256 of the empty message (FIPS 180-4 test vector). -/
theorem sha256_empty_vector :
    bytesToHex (sha256 []) =
      "e3b0c44298fc1c149afbf4c8996fb92427ae41e4649b934ca495991b7852b855".data := by
  decide

/-- SHA-256 of "abc" (FIPS 180-4 test vector). -/
theorem sha256_abc_vector :
    sha256Hex "abc".data =
      "ba7816bf8f01cfea414140de5dae2223b00361a396177a9cb410ff61f20015ad".data := by
  decide

/-! ### Truncation and encoding lemmas -/

theorem utf8EncodeChar_length_pos (c : Char) : 1 ≤ (utf8EncodeChar c).length := by
  simp only [utf8EncodeChar]
  split_ifs <;> simp

theorem length_le_utf8 (p : List Char) : p.length ≤ (utf8Encode p).length := by
  induction p with
  | nil => simp [utf8Encode]
  | cons c p ih =>
    simp only [utf8Encode, List.map_cons, List.flatten_cons, List.length_append,
      List.length_cons]
    have := utf8EncodeChar_length_pos c
    simp only [utf8Encode] at ih
    omega

theorem truncate72_of_short (p : List Char) (h : p.length ≤ 72) : truncate72 p = p := by
  unfold truncate72
  split
  · exact List.take_of_length_le h
  · rfl

theorem truncate72_of_long_chars (p : List Char) (h : 72 < p.length) :
    truncate72 p = p.take 72 := by
  unfold truncate72
  rw [if_pos (lt_of_lt_of_le h (length_le_utf8 p))]

theorem utf8Encode_ascii (p : List Char) (h : ∀ c ∈ p, c.toNat < 128) :
    utf8Encode p = p.map Char.toNat := by
  induction p with
  | nil => rfl
  | cons c p ih =>
    have hc : c.toNat < 128 := h c (List.mem_cons_self _ _)
    have ih' := ih (fun d hd => h d (List.mem_cons_of_mem _ hd))
    simp only [utf8Encode, List.map_cons, List.flatten_cons] at ih' ⊢
    rw [ih', utf8EncodeChar, if_pos hc]
    rfl

/-! ### C5 -/

/-- C5: when the stored hash is exactly 64 lowercase-hex characters,
`verify_password` takes the legacy branch: it compares the SHA-256 hexdigest
of the (full) input password against the stored hash and returns exactly that
comparison; the bcrypt backend is never consulted, so the result is the same
for every backend. -/
theorem verify_password_legacy_branch (B B' : HashBackend) (p h : List Char)
    (hh : isSha256Hash h = true) :
    verify_password B p h = (sha256Hex p == h) ∧
    verify_password B p h = verify_password B' p h := by
  simp [verify_password, hh]

/-- Witness for C5 at a concrete 64-hex stored hash and password. -/
theorem verify_password_legacy_branch_witness :
    isSha256Hash (List.replicate 64 '0') = true ∧
    (verify_password failingBackend "pw".data (List.replicate 64 '0') =
        (sha256Hex "pw".data == List.replicate 64 '0') ∧
      verify_password failingBackend "pw".data (List.replicate 64 '0') =
        verify_password ⟨fun p => some ('x' :: p), fun _ _ => some false⟩ "pw".data
          (List.replicate 64 '0')) := by
  refine ⟨by decide, ?_⟩
  exact verify_password_legacy_branch failingBackend
    ⟨fun p => some ('x' :: p), fun _ _ => some false⟩
    "pw".data (List.replicate 64 '0') (by decide)

/-! ### C1 -/

/-- C1 counterexample: for the 73-character ASCII password `pwA73`, with the
bcrypt library unavailable (the SHA-256 fallback produced the stored hash),
the hash stores the digest of the first 72 characters but verification
digests the full 73 characters, so the round trip returns `false`. -/
theorem verify_of_hash_fails_fallback_long :
    verify_password failingBackend pwA73 (get_password_hash failingBackend pwA73) = false := by
  decide

/-- C1 amended: `verify_password p (get_password_hash p) = true` holds
whenever the primary bcrypt path produced the stored hash (for any password),
or the password is at most 72 characters (on either path); the uncovered case
is exactly the SHA-256 fallback with a password longer than 72 characters. -/
theorem verify_of_hash_roundtrip (B : HashBackend) (p : List Char)
    (hB : GoodBackend B)
    (hcase : (∃ h, B.bcryptHash (truncate72 p) = some h) ∨ p.length ≤ 72) :
    verify_password B p (get_password_hash B p) = true := by
  obtain ⟨hrt, hnx⟩ := hB
  cases hbc : B.bcryptHash (truncate72 p) with
  | some h =>
    have h1 : get_password_hash B p = h := by
      simp [get_password_hash, hbc]
    rw [h1]
    simp [verify_password, hnx _ _ hbc, hrt _ _ hbc]
  | none =>
    have hlen : p.length ≤ 72 := by
      rcases hcase with ⟨h, hh⟩ | hlen
      · rw [hbc] at hh; exact absurd hh (by simp)
      · exact hlen
    have ht : truncate72 p = p := truncate72_of_short p hlen
    rw [ht] at hbc
    have h1 : get_password_hash B p = sha256Hex p := by
      simp [get_password_hash, ht, hbc]
    rw [h1]
    simp [verify_password, isSha256Hash_sha256Hex, ht]

/-- Witness for the amended C1 on the fallback path with a short password. -/
theorem verify_of_hash_roundtrip_witness :
    GoodBackend failingBackend ∧ "secret".data.length ≤ 72 ∧
      verify_password failingBackend "secret".data
        (get_password_hash failingBackend "secret".data) = true := by
  have hB : GoodBackend failingBackend :=
    ⟨fun _ _ h => (nomatch h), fun _ _ h => (nomatch h)⟩
  exact ⟨hB, ⟨by decide,
    verify_of_hash_roundtrip failingBackend "secret".data hB (Or.inr (by decide))⟩⟩

/-! ### C4 -/

/-- C4 counterexample: for the 73-character password `pwCent73` (146 UTF-8
bytes), the hash produced on the fallback path is not the digest of the first
72 bytes of the encoded password — the source slices 72 characters (144
bytes), not 72 bytes. -/
theorem hash_not_byte_truncation :
    get_password_hash failingBackend pwCent73 ≠
      bytesToHex (sha256 ((utf8Encode pwCent73).take 72)) := by
  decide

/-- C4 amended: when the UTF-8 encoding of the password exceeds 72 bytes,
`get_password_hash` hashes the first 72 *characters* of the password (on both
paths); only for pure-ASCII passwords does this coincide with the first 72
bytes of the encoding. -/
theorem hash_truncates_to_72_chars (B : HashBackend) (p : List Char)
    (hlong : 72 < (utf8Encode p).length) :
    get_password_hash B p = get_password_hash B (p.take 72) ∧
    ((∀ c ∈ p, c.toNat < 128) → utf8Encode (p.take 72) = (utf8Encode p).take 72) := by
  constructor
  · have h1 : truncate72 p = p.take 72 := by
      unfold truncate72; rw [if_pos hlong]
    have h2 : truncate72 (p.take 72) = p.take 72 := by
      unfold truncate72
      split
      · rw [List.take_take]; norm_num
      · rfl
    simp [get_password_hash, h1, h2]
  · intro hascii
    have hascii' : ∀ c ∈ p.take 72, c.toNat < 128 :=
      fun c hc => hascii c (List.take_subset _ _ hc)
    rw [utf8Encode_ascii _ hascii, utf8Encode_ascii _ hascii', List.map_take]

/-- Witness for the amended C4 at the long ASCII password `pwB100`. -/
theorem hash_truncates_to_72_chars_witness :
    72 < (utf8Encode pwB100).length ∧
      get_password_hash failingBackend pwB100 =
        get_password_hash failingBackend (pwB100.take 72) ∧
      utf8Encode (pwB100.take 72) = (utf8Encode pwB100).take 72 := by
  have h := hash_truncates_to_72_chars failingBackend pwB100 (by decide)
  exact ⟨by decide, h.1, h.2 (by decide)⟩

/-! ### C9 -/

/-- C9: `get_password_hash` truncates to 72 characters on its fallback path
while `verify_password`'s legacy branch digests the full input without
truncation; hence for a password longer than 72 characters whose stored hash
came from the SHA-256 fallback, verification compares the digest of the full
password against the digest of its 72-character prefix and returns `false`
(the final hypothesis is SHA-256 collision-freedom at this pair, which the
claim implicitly assumes and which holds at every concrete input checked). -/
theorem verify_false_after_fallback_hash (B : HashBackend) (p : List Char)
    (hlong : 72 < p.length)
    (hfb : B.bcryptHash (truncate72 p) = none)
    (hcoll : sha256Hex p ≠ sha256Hex (p.take 72)) :
    get_password_hash B p = sha256Hex (p.take 72) ∧
    verify_password B p (get_password_hash B p) = false := by
  have ht : truncate72 p = p.take 72 := truncate72_of_long_chars p hlong
  rw [ht] at hfb
  have h1 : get_password_hash B p = sha256Hex (p.take 72) := by
    simp [get_password_hash, ht, hfb]
  refine ⟨h1, ?_⟩
  rw [h1]
  simp only [verify_password, isSha256Hash_sha256Hex, if_true]
  exact beq_eq_false_iff_ne.mpr hcoll

/-- Witness for C9 at the 73-character ASCII password `pwB100.take 73`. -/
theorem verify_false_after_fallback_hash_witness :
    72 < (pwB100.take 73).length ∧
      failingBackend.bcryptHash (truncate72 (pwB100.take 73)) = none ∧
      sha256Hex (pwB100.take 73) ≠ sha256Hex ((pwB100.take 73).take 72) ∧
      verify_password failingBackend (pwB100.take 73)
        (get_password_hash failingBackend (pwB100.take 73)) = false :=
  ⟨by decide, rfl, by decide,
   (verify_false_after_fallback_hash failingBackend (pwB100.take 73)
     (by decide) rfl (by decide)).2⟩

/-! ### C2 -/

theorem verify_token_signed_eq (cs : List (List Char × JValue)) (now : Int) :
    verify_token (Token.signed cs SECRET_KEY ALGORITHM) now =
      if expRejected cs now then Except.error couldNotValidate
      else
        match cs.lookup ("sub".data) with
        | some (JValue.str email) => Except.ok ⟨email⟩
        | _ => Except.error couldNotValidate := by
  have hc : (SECRET_KEY == SECRET_KEY && [ALGORITHM].contains ALGORITHM) = true := by decide
  cases hexp : cs.lookup ("exp".data) with
  | none => simp [verify_token, jwtDecode, expRejected, hc, hexp]
  | some v =>
    cases v with
    | int e =>
      by_cases he : e < now
      · simp [verify_token, jwtDecode, expRejected, hc, hexp, he]
      · simp [verify_token, jwtDecode, expRejected, hc, hexp, he]
    | str s => simp [verify_token, jwtDecode, expRejected, hc, hexp]

theorem verify_token_badkey (cs : List (List Char × JValue)) (k a : List Char) (now : Int)
    (h : ¬(k = SECRET_KEY ∧ a = ALGORITHM)) :
    verify_token (Token.signed cs k a) now = Except.error couldNotValidate := by
  have hc : (k == SECRET_KEY && [ALGORITHM].contains a) = false := by
    rw [Bool.and_eq_false_iff]
    by_cases hk : k = SECRET_KEY
    · right
      have ha : a ≠ ALGORITHM := fun ha => h ⟨hk, ha⟩
      simp [List.contains, List.elem_cons, ha]
    · left
      simp [hk]
  simp [verify_token, jwtDecode, hc, h]

/-- C2 amended: `verify_token` fails with the 401 `Unauthorized` response if
and only if the token is malformed, signed with a different secret or
algorithm, carries an `exp` claim that is past (or non-numeric), or its `sub`
claim is missing or not a string; every failure is the same 401, and
otherwise it returns the subject email. The claim's parenthetical about
ttl=0 is dropped: `create_access_token` treats a zero `expires_delta` as
absent (Python falsiness), so such a token gets the 15-minute default expiry
and validates successfully (see the counterexample). -/
theorem verify_token_unauthorized_iff (t : Token) (now : Int) :
    ((∃ e, verify_token t now = Except.error e) ↔
      t = Token.malformed ∨
      (∃ cs k a, t = Token.signed cs k a ∧ ¬(k = SECRET_KEY ∧ a = ALGORITHM)) ∨
      (∃ cs, t = Token.signed cs SECRET_KEY ALGORITHM ∧ expRejected cs now = true) ∨
      (∃ cs, t = Token.signed cs SECRET_KEY ALGORITHM ∧ expRejected cs now = false ∧
        subMissing cs = true)) ∧
    (∀ e, verify_token t now = Except.error e → e = couldNotValidate) ∧
    (∀ cs email, t = Token.signed cs SECRET_KEY ALGORITHM →
      expRejected cs now = false →
      cs.lookup ("sub".data) = some (JValue.str email) →
      verify_token t now = Except.ok ⟨email⟩) := by
  refine ⟨?_, ?_, ?_⟩
  · cases t with
    | malformed =>
      exact Iff.intro (fun _ => Or.inl rfl)
        (fun _ => Exists.intro couldNotValidate rfl)
    | signed cs k a =>
      by_cases hk : k = SECRET_KEY ∧ a = ALGORITHM
      · obtain ⟨rfl, rfl⟩ := hk
        rw [verify_token_signed_eq]
        constructor
        · rintro ⟨e, he⟩
          by_cases hexp : expRejected cs now
          · exact Or.inr (Or.inr (Or.inl ⟨cs, rfl, hexp⟩))
          · rw [if_neg (by simp [hexp])] at he
            have hexp' : expRejected cs now = false := by simpa using hexp
            have hsm : subMissing cs = true := by
              unfold subMissing
              cases hsub : cs.lookup ("sub".data) with
              | none => rfl
              | some v =>
                cases v with
                | str s => rw [hsub] at he; cases he
                | int n => rfl
            exact Or.inr (Or.inr (Or.inr ⟨cs, rfl, hexp', hsm⟩))
        · rintro (h | ⟨cs', k', a', heq, hne⟩ | ⟨cs', heq, hexp⟩ | ⟨cs', heq, hexp, hsub⟩)
          · cases h
          · injection heq with h1 h2 h3
            exact absurd (And.intro h2.symm h3.symm) hne
          · injection heq with h1 h2 h3
            subst h1
            rw [if_pos hexp]
            exact ⟨couldNotValidate, rfl⟩
          · injection heq with h1 h2 h3
            subst h1
            rw [if_neg (by simp [hexp])]
            unfold subMissing at hsub
            cases hs : cs.lookup ("sub".data) with
            | none => exact ⟨couldNotValidate, rfl⟩
            | some v =>
              cases v with
              | str s => rw [hs] at hsub; cases hsub
              | int n => exact ⟨couldNotValidate, rfl⟩
      · rw [verify_token_badkey cs k a now hk]
        exact Iff.intro (fun _ => Or.inr (Or.inl ⟨cs, k, a, rfl, hk⟩))
          (fun _ => Exists.intro couldNotValidate rfl)
  · intro e he
    cases t with
    | malformed => exact (Except.error.inj he).symm
    | signed cs k a =>
      by_cases hk : k = SECRET_KEY ∧ a = ALGORITHM
      · obtain ⟨rfl, rfl⟩ := hk
        rw [verify_token_signed_eq] at he
        by_cases hexp : expRejected cs now
        · rw [if_pos hexp] at he; injection he with h; exact h.symm
        · rw [if_neg (by simp [hexp])] at he
          cases hs : cs.lookup ("sub".data) with
          | none => rw [hs] at he; injection he with h; exact h.symm
          | some v =>
            cases v with
            | str s => rw [hs] at he; cases he
            | int n => rw [hs] at he; injection he with h; exact h.symm
      · rw [verify_token_badkey cs k a now hk] at he
        injection he with h; exact h.symm
  · intro cs email heq hexp hsub
    subst heq
    rw [verify_token_signed_eq, if_neg (by simp [hexp]), hsub]

/-- Witness for the amended C2: a well-signed unexpired token with a string
`sub` claim validates to its subject. -/
theorem verify_token_unauthorized_iff_witness :
    verify_token (Token.signed [("sub".data, JValue.str "a@b.c".data),
        ("exp".data, JValue.int 2000)] SECRET_KEY ALGORITHM) 1000 =
      Except.ok ⟨"a@b.c".data⟩ :=
  (verify_token_unauthorized_iff
    (Token.signed [("sub".data, JValue.str "a@b.c".data),
      ("exp".data, JValue.int 2000)] SECRET_KEY ALGORITHM) 1000).2.2
    _ "a@b.c".data rfl rfl rfl

/-- C2 counterexample: a token issued with ttl = 0 at time 1000 does not
fail validation at time 1000 — Python's `if expires_delta:` is false for a
zero timedelta, so the token received the 15-minute default expiry. -/
theorem token_ttl_zero_validates :
    verify_token
      (create_access_token [("sub".data, JValue.str "user@test.com".data)] (some 0) 1000)
      1000 = Except.ok ⟨"user@test.com".data⟩ := by
  rfl

/-! ### C3 -/

/-- C3 counterexample: a user whose `is_active` flag is false still resolves
successfully — `get_current_user` filters on email only. -/
theorem get_current_user_resolves_inactive :
    inactiveUser.is_active = false ∧
    get_current_user dbInactive ⟨"dana@test.com".data⟩ = Except.ok inactiveUser :=
  ⟨rfl, rfl⟩

/-- C3 amended: after token validation, `get_current_user` returns the first
user record whose email equals the validated subject and fails with the 401
`Unauthorized` response exactly when no user has that email; the `is_active`
flag is not consulted, so an inactive user also resolves. -/
theorem get_current_user_spec (db : DB) (td : TokenData) :
    (db.users.find? (fun u => u.email == td.email) = none →
      get_current_user db td = Except.error couldNotValidate) ∧
    (∀ u, db.users.find? (fun u => u.email == td.email) = some u →
      get_current_user db td = Except.ok u) := by
  constructor
  · intro h
    simp [get_current_user, h]
  · intro u h
    simp [get_current_user, h]

/-- Witness for the amended C3: the inactive user's record is returned. -/
theorem get_current_user_spec_witness :
    get_current_user dbInactive ⟨"dana@test.com".data⟩ = Except.ok inactiveUser :=
  (get_current_user_spec dbInactive ⟨"dana@test.com".data⟩).2 inactiveUser rfl

/-! ### C6 -/

/-- C6: a login with an email matching no user and a login with a known
email but a wrong password produce the identical generic 401 response
(`"Incorrect email or password"`), so the two failing runs are
indistinguishable to the caller. -/
theorem login_failures_indistinguishable (db : DB) (B : HashBackend)
    (e1 p1 e2 p2 : List Char) (now1 now2 : Int) (u : User)
    (h1 : db.users.find? (fun v => v.email == e1) = none)
    (h2 : db.users.find? (fun v => v.email == e2) = some u)
    (hpw : verify_password B p2 u.hashed_password = false) :
    login db B e1 p1 now1 = Except.error incorrectEmailOrPassword ∧
    login db B e2 p2 now2 = Except.error incorrectEmailOrPassword ∧
    login db B e1 p1 now1 = login db B e2 p2 now2 := by
  have ha1 : authenticate_user db B e1 p1 = none := by
    simp [authenticate_user, h1]
  have ha2 : authenticate_user db B e2 p2 = none := by
    simp [authenticate_user, h2, hpw]
  refine ⟨?_, ?_, ?_⟩ <;> simp [login, ha1, ha2]

/-- Witness for C6: unknown email vs. wrong password against the stored
legacy hash give the same 401 response. -/
theorem login_failures_indistinguishable_witness :
    login dbInactive failingBackend "nobody@test.com".data "pw".data 0 =
      Except.error incorrectEmailOrPassword ∧
    login dbInactive failingBackend "dana@test.com".data "wrong".data 5 =
      Except.error incorrectEmailOrPassword :=
  let h := login_failures_indistinguishable dbInactive failingBackend
    "nobody@test.com".data "pw".data "dana@test.com".data "wrong".data 0 5
    inactiveUser rfl rfl (by decide)
  ⟨h.1, h.2.1⟩

/-! ### C10 -/

/-- C10: the event listing returns exactly the events whose `is_active` flag
is true, so an inactive event is omitted from the listing; fetching by id
does not filter on `is_active`, so the same inactive event is still returned
by an id lookup. -/
theorem inactive_event_listed_vs_lookup (db : DB) (i : Nat) (e : Event)
    (hfind : db.events.find? (fun v => v.id == i) = some e)
    (hinactive : e.is_active = false) :
    (∀ v ∈ get_events db, v.is_active = true) ∧
    e ∉ get_events db ∧
    get_event_details db i = Except.ok e := by
  refine ⟨?_, ?_, ?_⟩
  · intro v hv
    exact (List.mem_filter.mp hv).2
  · intro hmem
    have hact := (List.mem_filter.mp hmem).2
    rw [hinactive] at hact
    cases hact
  · simp [get_event_details, hfind]

/-- Witness for C10: `inactiveEvent` is returned by id lookup though it is
inactive. -/
theorem inactive_event_listed_vs_lookup_witness :
    inactiveEvent ∉ get_events dbEvents ∧
    get_event_details dbEvents 5 = Except.ok inactiveEvent :=
  let h := inactive_event_listed_vs_lookup dbEvents 5 inactiveEvent rfl rfl
  ⟨h.2.1, h.2.2⟩

/-! ### C7 -/

theorem find?_map_id_preserving (l : List Event) (i : Nat) (f : Event → Event)
    (hf : ∀ e, (f e).id = e.id) :
    (l.map f).find? (fun e => e.id == i) = (l.find? (fun e => e.id == i)).map f := by
  induction l with
  | nil => rfl
  | cons a l ih =>
    simp only [List.map_cons]
    by_cases hp : (a.id == i) = true
    · rw [List.find?_cons_of_pos (l.map f) (show ((f a).id == i) = true by rw [hf]; exact hp),
        List.find?_cons_of_pos l hp]
      rfl
    · rw [List.find?_cons_of_neg (l.map f)
          (show ¬((f a).id == i) = true by rw [hf]; simpa using hp),
        List.find?_cons_of_neg l (by simpa using hp)]
      exact ih

/-- C7: `register_for_event` fails 404 when the event does not exist; fails
400 when the found event has no capacity (`max_participants <= 0`); fails
400 when the user already has a `registered`-status registration for the
event; otherwise succeeds, appends exactly one new registration row for
(user, event), and decrements that event's `max_participants` by one,
leaving the other tables and other events unchanged. -/
theorem register_for_event_spec (db : DB) (u : User) (i : Nat) :
    (db.events.find? (fun e => e.id == i) = none →
      register_for_event db u i = Except.error (404, "Event not found".data)) ∧
    (∀ event, db.events.find? (fun e => e.id == i) = some event →
      event.max_participants ≤ 0 →
      register_for_event db u i =
        Except.error (400, "No slots available for this event".data)) ∧
    (∀ event, db.events.find? (fun e => e.id == i) = some event →
      0 < event.max_participants →
      (db.registrations.find? (fun r => r.user_id == u.id && r.event_id == i &&
        r.status == "registered".data)).isSome = true →
      register_for_event db u i =
        Except.error (400, "Already registered for this event".data)) ∧
    (∀ event, db.events.find? (fun e => e.id == i) = some event →
      0 < event.max_participants →
      db.registrations.find? (fun r => r.user_id == u.id && r.event_id == i &&
        r.status == "registered".data) = none →
      ∃ db' r, register_for_event db u i = Except.ok (db', r) ∧
        r.user_id = u.id ∧ r.event_id = i ∧ r.status = "registered".data ∧
        db'.registrations = db.registrations ++ [r] ∧
        db'.users = db.users ∧ db'.feedbacks = db.feedbacks ∧
        db'.events.find? (fun e => e.id == i) =
          some { event with max_participants := event.max_participants - 1 } ∧
        (∀ e ∈ db.events, e.id ≠ event.id → e ∈ db'.events)) := by
  refine ⟨?_, ?_, ?_, ?_⟩
  · intro h
    simp [register_for_event, h]
  · intro event hfind hle
    simp [register_for_event, hfind, hle]
  · intro event hfind hpos hdup
    simp [register_for_event, hfind, hdup, not_le.mpr hpos]
  · intro event hfind hpos hdup
    have hne : ¬(event.max_participants ≤ 0) := not_le.mpr hpos
    have hdup' : (db.registrations.find? (fun r => r.user_id == u.id &&
        r.event_id == i && r.status == "registered".data)).isSome = false := by
      rw [hdup]; rfl
    refine ⟨{ db with
        registrations := db.registrations ++ [⟨db.nextRegId, u.id, i, "registered".data⟩],
        events := db.events.map (fun e => if e.id == event.id then
          { e with max_participants := e.max_participants - 1 } else e),
        nextRegId := db.nextRegId + 1 },
      ⟨db.nextRegId, u.id, i, "registered".data⟩, ?_, rfl, rfl, rfl, rfl, rfl, rfl, ?_, ?_⟩
    · simp [register_for_event, hfind, hne, hdup']
    · have hid : event.id = i := by
        have := List.find?_some hfind
        simpa using this
      have hfmap := find?_map_id_preserving db.events i
        (fun e => if e.id == event.id then
          { e with max_participants := e.max_participants - 1 } else e)
        (fun e => by dsimp only; split <;> rfl)
      dsimp only
      rw [hfmap, hfind]
      simp [hid]
    · intro e hmem hne'
      have : (if e.id == event.id then
          { e with max_participants := e.max_participants - 1 } else e) = e := by
        rw [if_neg (by simpa using hne')]
      exact this ▸ List.mem_map_of_mem _ hmem

/-- Witness for C7: a successful registration against `activeEvent`. -/
theorem register_for_event_spec_witness :
    0 < activeEvent.max_participants ∧
    (∃ db' r, register_for_event dbEvents inactiveUser 7 = Except.ok (db', r) ∧
      r.user_id = inactiveUser.id ∧ r.event_id = 7 ∧ r.status = "registered".data ∧
      db'.registrations = dbEvents.registrations ++ [r] ∧
      db'.users = dbEvents.users ∧ db'.feedbacks = dbEvents.feedbacks ∧
      db'.events.find? (fun e => e.id == 7) =
        some { activeEvent with max_participants := activeEvent.max_participants - 1 } ∧
      (∀ e ∈ dbEvents.events, e.id ≠ activeEvent.id → e ∈ db'.events)) :=
  ⟨by decide,
   (register_for_event_spec dbEvents inactiveUser 7).2.2.2 activeEvent rfl
     (by decide) rfl⟩

/-! ### C8 -/

theorem find?_eraseP_of_countP_le_one {α : Type} (l : List α) (p : α → Bool)
    (h : l.countP p ≤ 1) : (l.eraseP p).find? p = none := by
  induction l with
  | nil => rfl
  | cons a l ih =>
    by_cases hp : p a = true
    · rw [List.eraseP_cons_of_pos hp]
      rw [List.countP_cons_of_pos _ _ hp] at h
      have h0 : l.countP p = 0 := by omega
      rw [List.find?_eq_none]
      intro x hx
      have := List.countP_eq_zero.mp h0
      simpa using this x hx
    · rw [List.eraseP_cons_of_neg (by simpa using hp)]
      rw [List.find?_cons_of_neg _ (by simpa using hp)]
      apply ih
      rw [List.countP_cons_of_neg _ _ (by simpa using hp)] at h
      exact h

/-- C8: under the role, existence and ownership guards, a successful
`delete_event` removes every registration row and feedback row referencing
the event and the event row itself, so subsequent fetches of the event's
registrations and feedback return empty and the event lookup returns 404;
and if any of the store steps inside the `try` block raises, the transaction
is rolled back — the store is exactly as before — and a 500 error is
reported. -/
theorem delete_event_spec (db : DB) (u : User) (i : Nat) (event : Event)
    (hrole : (u.role != "organizer".data && u.role != "admin".data) = false)
    (hfind : db.events.find? (fun e => e.id == i) = some event)
    (hown : (u.role != "admin".data && event.organizer_id != u.id) = false)
    (hcount : db.events.countP (fun e => e.id == i) ≤ 1) :
    (∀ k, delete_event db u i (some k) =
      (db, Except.error (500, "Failed to delete event".data))) ∧
    (∃ db', delete_event db u i none =
        (db', Except.ok "Event deleted successfully".data) ∧
      get_event_registrations db' i = [] ∧
      get_event_feedback db' i = [] ∧
      get_event_details db' i = Except.error (404, "Event not found".data) ∧
      db'.users = db.users) := by
  constructor
  · intro k
    match k with
    | 0 => simp [delete_event, hrole, hfind, hown]
    | 1 => simp [delete_event, hrole, hfind, hown]
    | 2 => simp [delete_event, hrole, hfind, hown]
    | (n + 3) => simp [delete_event, hrole, hfind, hown]
  · refine ⟨{ db with
        registrations := db.registrations.filter (fun r => !(r.event_id == i)),
        feedbacks := db.feedbacks.filter (fun f => !(f.event_id == i)),
        events := db.events.eraseP (fun e => e.id == i) }, ?_, ?_, ?_, ?_, rfl⟩
    · simp [delete_event, hrole, hfind, hown]
    · simp only [get_event_registrations, List.filter_filter]
      rw [List.filter_eq_nil_iff]
      intro r hr
      simp
    · simp only [get_event_feedback, List.filter_filter]
      rw [List.filter_eq_nil_iff]
      intro r hr
      simp
    · simp [get_event_details, find?_eraseP_of_countP_le_one _ _ hcount]

/-- Witness for C8: deleting event 5 from `dbDelete` succeeds and cascades,
and a raising store call leaves the store untouched with a 500. -/
theorem delete_event_spec_witness :
    delete_event dbDelete organizerUser 5 (some 1) =
      (dbDelete, Except.error (500, "Failed to delete event".data)) ∧
    (∃ db', delete_event dbDelete organizerUser 5 none =
        (db', Except.ok "Event deleted successfully".data) ∧
      get_event_registrations db' 5 = [] ∧
      get_event_feedback db' 5 = [] ∧
      get_event_details db' 5 = Except.error (404, "Event not found".data) ∧
      db'.users = dbDelete.users) :=
  let h := delete_event_spec dbDelete organizerUser 5 inactiveEvent
    (by decide) rfl (by decide) (by decide)
  ⟨h.1 1, h.2⟩

end GameHub
